import Mathlib

/-!
Shallow embedding of the payment-method widget dispatcher of
`src/packages/digitalriver-integration/jest.config.js` (the embedded
TSX module `PaymentMethodComponent` and `mapToWithCheckoutPaymentMethodProps`).
The dispatcher is an ordered first-match-wins chain of equality tests over
the four descriptor fields `id`, `gateway`, `type`, `method`, returning one
React component class or `null`; all props are forwarded with `{...props}`.
-/

namespace BigCommerceCheckout

/-- Modelled from the spec: the string-enum module `PaymentMethodId` is imported
by the dispatcher but its definition file is not part of the repository snapshot.
Per the spec's data model the members are identifier strings; they are modelled
as pairwise distinct string literals named after the enum members. -/
def PaymentMethodId.SquareV2 : String := "squarev2"

def PaymentMethodId.StripeV3 : String := "stripev3"

def PaymentMethodId.StripeUPE : String := "stripeupe"

def PaymentMethodId.AmazonPay : String := "amazonpay"

def PaymentMethodId.CCAvenueMars : String := "ccavenuemars"

def PaymentMethodId.ChasePay : String := "chasepay"

def PaymentMethodId.Checkoutcom : String := "checkoutcom"

def PaymentMethodId.Masterpass : String := "masterpass"

def PaymentMethodId.Braintree : String := "braintree"

def PaymentMethodId.PaypalCommerceCreditCards : String := "paypalcommercecreditcards"

def PaymentMethodId.PaypalExpress : String := "paypalexpress"

def PaymentMethodId.PaypalPaymentsPro : String := "paypalpaymentspro"

def PaymentMethodId.Moneris : String := "moneris"

def PaymentMethodId.WorldpayAccess : String := "worldpayaccess"

def PaymentMethodId.Afterpay : String := "afterpay"

def PaymentMethodId.Clearpay : String := "clearpay"

def PaymentMethodId.BraintreeVenmo : String := "braintreevenmo"

def PaymentMethodId.Humm : String := "humm"

def PaymentMethodId.Laybuy : String := "laybuy"

def PaymentMethodId.Quadpay : String := "quadpay"

def PaymentMethodId.Sezzle : String := "sezzle"

def PaymentMethodId.Zip : String := "zip"

def PaymentMethodId.Opy : String := "opy"

/-- Modelled from the spec: the string-enum module `PaymentMethodProviderType`
(provider category: hosted / API-driven / special-protocol) is imported by the
dispatcher but its definition file is not part of the repository snapshot; the
members are modelled as pairwise distinct string literals. -/
def PaymentMethodProviderType.PPSDK : String := "PAYMENT_TYPE_SDK"

def PaymentMethodProviderType.Hosted : String := "PAYMENT_TYPE_HOSTED"

def PaymentMethodProviderType.Api : String := "PAYMENT_TYPE_API"

/-- Modelled from the spec: the string-enum module `PaymentMethodType` (payment
modality: credit-card / PayPal / PayPal-credit) is imported by the dispatcher but
its definition file is not part of the repository snapshot; the members are
modelled as pairwise distinct string literals. -/
def PaymentMethodType.Paypal : String := "paypal"

def PaymentMethodType.PaypalCredit : String := "paypalcredit"

def PaymentMethodType.CreditCard : String := "credit-card"

/-- The payment-method descriptor: the four fields the dispatcher reads
(`method.id`, `method.gateway`, `method.type`, `method.method`); per the spec's
data model `gateway` is optional, the rest are strings. -/
@[ext]
structure PaymentMethod where
  id : String
  gateway : Option String
  type : String
  method : String
deriving DecidableEq, Repr

/-- The outer props of `PaymentMethodComponent` (interface `PaymentMethodProps`):
the descriptor, two optional flags and the two optional callbacks. Callback
values are opaque to the dispatcher, so their types are parameters. -/
structure PaymentMethodProps (A B : Type) where
  method : PaymentMethod
  isEmbedded : Option Bool
  isUsingMultiShipping : Option Bool
  onUnhandledError : Option A
  submitForm : Option B
deriving DecidableEq, Repr

/-- The injected props (interface `WithCheckoutPaymentMethodProps`): the
initializing flag and the four lifecycle callbacks, whose values are opaque to
the dispatcher. -/
structure WithCheckoutPaymentMethodProps (C D E F : Type) where
  isInitializing : Bool
  deinitializeCustomer : C
  deinitializePayment : D
  initializeCustomer : E
  initializePayment : F
deriving DecidableEq, Repr

/-- The full props of the component: the TSX intersection type
`PaymentMethodProps & WithCheckoutPaymentMethodProps`. -/
structure PaymentMethodComponentProps (A B C D E F : Type) extends
    PaymentMethodProps A B, WithCheckoutPaymentMethodProps C D E F
deriving DecidableEq, Repr

/-- A rendered element: the selected component class together with the props
spread into it (`<X {...props} />`). -/
inductive ReactComponent where
  | PPSDKPaymentMethod
  | SquarePaymentMethod
  | StripePaymentMethod
  | StripeUPEPaymentMethod
  | AmazonPayV2PaymentMethod
  | CCAvenueMarsPaymentMethod
  | ChasePayPaymentMethod
  | HostedCreditCardPaymentMethod
  | HostedPaymentMethod
  | MasterpassPaymentMethod
  | BraintreeCreditCardPaymentMethod
  | PaypalCommerceCreditCardPaymentMethod
  | PaypalExpressPaymentMethod
  | PaypalPaymentsProPaymentMethod
  | MonerisPaymentMethod
  | WorldpayCreditCardPaymentMethod
  | OpyPaymentMethod
deriving DecidableEq, Repr

/-- The dispatcher `PaymentMethodComponent`, translated test by test in source
order; `some (c, p)` renders component class `c` with props `p` (every branch
spreads the incoming props unchanged), `none` is the `return null` at the end. -/
def PaymentMethodComponent {A B C D E F : Type}
    (props : PaymentMethodComponentProps A B C D E F) :
    Option (ReactComponent × PaymentMethodComponentProps A B C D E F) :=
  let method := props.method
  if method.type = PaymentMethodProviderType.PPSDK then
    some (ReactComponent.PPSDKPaymentMethod, props)
  else if method.id = PaymentMethodId.SquareV2 then
    some (ReactComponent.SquarePaymentMethod, props)
  else if method.gateway = some PaymentMethodId.StripeV3 then
    some (ReactComponent.StripePaymentMethod, props)
  else if method.gateway = some PaymentMethodId.StripeUPE then
    some (ReactComponent.StripeUPEPaymentMethod, props)
  else if method.id = PaymentMethodId.AmazonPay then
    some (ReactComponent.AmazonPayV2PaymentMethod, props)
  else if method.id = PaymentMethodId.CCAvenueMars then
    some (ReactComponent.CCAvenueMarsPaymentMethod, props)
  else if method.id = PaymentMethodId.ChasePay then
    some (ReactComponent.ChasePayPaymentMethod, props)
  else if method.gateway = some PaymentMethodId.Checkoutcom then
    if method.id = "credit_card" ∨ method.id = "card" then
      some (ReactComponent.HostedCreditCardPaymentMethod, props)
    else
      some (ReactComponent.HostedPaymentMethod, props)
  else if method.id = PaymentMethodId.Masterpass then
    some (ReactComponent.MasterpassPaymentMethod, props)
  else if method.id = PaymentMethodId.Braintree then
    some (ReactComponent.BraintreeCreditCardPaymentMethod, props)
  else if method.id = PaymentMethodId.PaypalCommerceCreditCards then
    some (ReactComponent.PaypalCommerceCreditCardPaymentMethod, props)
  else if method.id = PaymentMethodId.PaypalExpress then
    some (ReactComponent.PaypalExpressPaymentMethod, props)
  else if method.type ≠ PaymentMethodProviderType.Hosted ∧
      method.id = PaymentMethodId.PaypalPaymentsPro then
    some (ReactComponent.PaypalPaymentsProPaymentMethod, props)
  else if method.id = PaymentMethodId.Moneris then
    some (ReactComponent.MonerisPaymentMethod, props)
  else if method.id = PaymentMethodId.WorldpayAccess then
    some (ReactComponent.WorldpayCreditCardPaymentMethod, props)
  else if method.gateway = some PaymentMethodId.Afterpay ∨
      method.gateway = some PaymentMethodId.Clearpay ∨
      method.id = PaymentMethodId.BraintreeVenmo ∨
      method.id = PaymentMethodId.Humm ∨
      method.id = PaymentMethodId.Laybuy ∨
      method.id = PaymentMethodId.Quadpay ∨
      method.id = PaymentMethodId.Sezzle ∨
      method.id = PaymentMethodId.Zip ∨
      method.method = PaymentMethodType.Paypal ∨
      method.method = PaymentMethodType.PaypalCredit ∨
      method.type = PaymentMethodProviderType.Hosted then
    some (ReactComponent.HostedPaymentMethod, props)
  else if method.id = PaymentMethodId.Opy then
    some (ReactComponent.OpyPaymentMethod, props)
  else if method.method = PaymentMethodType.CreditCard ∨
      method.type = PaymentMethodProviderType.Api then
    some (ReactComponent.HostedCreditCardPaymentMethod, props)
  else
    none

/-- The component class the dispatcher selects for given props (the rendered
element without the forwarded props). -/
def selectedComponent {A B C D E F : Type}
    (props : PaymentMethodComponentProps A B C D E F) : Option ReactComponent :=
  (PaymentMethodComponent props).map Prod.fst

/-- The `statuses` object of the checkout state: the dispatcher's mapper only
reads the `isInitializingPayment` query (method id to boolean). -/
structure CheckoutStatuses where
  isInitializingPayment : String → Bool

/-- The checkout state (`CheckoutSelectors`): the mapper destructures only its
`statuses`. -/
structure CheckoutState where
  statuses : CheckoutStatuses

/-- The checkout service: the four lifecycle methods the mapper forwards, with
opaque values. -/
structure CheckoutService (C D E F : Type) where
  deinitializeCustomer : C
  deinitializePayment : D
  initializeCustomer : E
  initializePayment : F

/-- The checkout context (`CheckoutContextProps`): the service and the state. -/
structure CheckoutContextProps (C D E F : Type) where
  checkoutService : CheckoutService C D E F
  checkoutState : CheckoutState

/-- The mapper `mapToWithCheckoutPaymentMethodProps`, translated from the
source: it forwards the service's four lifecycle methods and queries
`isInitializingPayment` at the descriptor's own id. -/
def mapToWithCheckoutPaymentMethodProps {A B C D E F : Type}
    (ctx : CheckoutContextProps C D E F) (props : PaymentMethodProps A B) :
    WithCheckoutPaymentMethodProps C D E F :=
  { isInitializing := ctx.checkoutState.statuses.isInitializingPayment props.method.id
    deinitializeCustomer := ctx.checkoutService.deinitializeCustomer
    deinitializePayment := ctx.checkoutService.deinitializePayment
    initializeCustomer := ctx.checkoutService.initializeCustomer
    initializePayment := ctx.checkoutService.initializePayment }

attribute [simp] PaymentMethodId.SquareV2 PaymentMethodId.StripeV3 PaymentMethodId.StripeUPE PaymentMethodId.AmazonPay PaymentMethodId.CCAvenueMars PaymentMethodId.ChasePay PaymentMethodId.Checkoutcom PaymentMethodId.Masterpass PaymentMethodId.Braintree PaymentMethodId.PaypalCommerceCreditCards PaymentMethodId.PaypalExpress PaymentMethodId.PaypalPaymentsPro PaymentMethodId.Moneris PaymentMethodId.WorldpayAccess PaymentMethodId.Afterpay PaymentMethodId.Clearpay PaymentMethodId.BraintreeVenmo PaymentMethodId.Humm PaymentMethodId.Laybuy PaymentMethodId.Quadpay PaymentMethodId.Sezzle PaymentMethodId.Zip PaymentMethodId.Opy PaymentMethodProviderType.PPSDK PaymentMethodProviderType.Hosted PaymentMethodProviderType.Api PaymentMethodType.Paypal PaymentMethodType.PaypalCredit PaymentMethodType.CreditCard

/-- The component class the chain picks as a function of the descriptor alone:
the same ordered tests as `PaymentMethodComponent`, with the forwarded props
dropped. Proven equal to the dispatcher below (`PaymentMethodComponent_eq`). -/
def widgetFor (method : PaymentMethod) : Option ReactComponent :=
  if method.type = PaymentMethodProviderType.PPSDK then
    some ReactComponent.PPSDKPaymentMethod
  else if method.id = PaymentMethodId.SquareV2 then
    some ReactComponent.SquarePaymentMethod
  else if method.gateway = some PaymentMethodId.StripeV3 then
    some ReactComponent.StripePaymentMethod
  else if method.gateway = some PaymentMethodId.StripeUPE then
    some ReactComponent.StripeUPEPaymentMethod
  else if method.id = PaymentMethodId.AmazonPay then
    some ReactComponent.AmazonPayV2PaymentMethod
  else if method.id = PaymentMethodId.CCAvenueMars then
    some ReactComponent.CCAvenueMarsPaymentMethod
  else if method.id = PaymentMethodId.ChasePay then
    some ReactComponent.ChasePayPaymentMethod
  else if method.gateway = some PaymentMethodId.Checkoutcom then
    if method.id = "credit_card" ∨ method.id = "card" then
      some ReactComponent.HostedCreditCardPaymentMethod
    else
      some ReactComponent.HostedPaymentMethod
  else if method.id = PaymentMethodId.Masterpass then
    some ReactComponent.MasterpassPaymentMethod
  else if method.id = PaymentMethodId.Braintree then
    some ReactComponent.BraintreeCreditCardPaymentMethod
  else if method.id = PaymentMethodId.PaypalCommerceCreditCards then
    some ReactComponent.PaypalCommerceCreditCardPaymentMethod
  else if method.id = PaymentMethodId.PaypalExpress then
    some ReactComponent.PaypalExpressPaymentMethod
  else if method.type ≠ PaymentMethodProviderType.Hosted ∧
      method.id = PaymentMethodId.PaypalPaymentsPro then
    some ReactComponent.PaypalPaymentsProPaymentMethod
  else if method.id = PaymentMethodId.Moneris then
    some ReactComponent.MonerisPaymentMethod
  else if method.id = PaymentMethodId.WorldpayAccess then
    some ReactComponent.WorldpayCreditCardPaymentMethod
  else if method.gateway = some PaymentMethodId.Afterpay ∨
      method.gateway = some PaymentMethodId.Clearpay ∨
      method.id = PaymentMethodId.BraintreeVenmo ∨
      method.id = PaymentMethodId.Humm ∨
      method.id = PaymentMethodId.Laybuy ∨
      method.id = PaymentMethodId.Quadpay ∨
      method.id = PaymentMethodId.Sezzle ∨
      method.id = PaymentMethodId.Zip ∨
      method.method = PaymentMethodType.Paypal ∨
      method.method = PaymentMethodType.PaypalCredit ∨
      method.type = PaymentMethodProviderType.Hosted then
    some ReactComponent.HostedPaymentMethod
  else if method.id = PaymentMethodId.Opy then
    some ReactComponent.OpyPaymentMethod
  else if method.method = PaymentMethodType.CreditCard ∨
      method.type = PaymentMethodProviderType.Api then
    some ReactComponent.HostedCreditCardPaymentMethod
  else
    none

/-- A props bundle with trivial callback values, used to evaluate the
dispatcher at concrete descriptors. -/
def sampleProps (m : PaymentMethod) :
    PaymentMethodComponentProps Unit Unit Unit Unit Unit Unit :=
  { method := m
    isEmbedded := none
    isUsingMultiShipping := none
    onUnhandledError := none
    submitForm := none
    isInitializing := false
    deinitializeCustomer := ()
    deinitializePayment := ()
    initializeCustomer := ()
    initializePayment := () }

/-- The specific identifiers of the spec's rule 2: each is mapped by the chain
to its own dedicated widget. -/
def specificWidgetIds : List String :=
  [PaymentMethodId.SquareV2, PaymentMethodId.AmazonPay, PaymentMethodId.CCAvenueMars,
   PaymentMethodId.ChasePay, PaymentMethodId.Masterpass, PaymentMethodId.Braintree,
   PaymentMethodId.PaypalCommerceCreditCards, PaymentMethodId.PaypalExpress,
   PaymentMethodId.PaypalPaymentsPro, PaymentMethodId.Moneris, PaymentMethodId.WorldpayAccess]

/-- The dedicated widget of each rule-2 specific identifier. -/
def dedicatedWidget (id : String) : Option ReactComponent :=
  if id = PaymentMethodId.SquareV2 then some ReactComponent.SquarePaymentMethod
  else if id = PaymentMethodId.AmazonPay then some ReactComponent.AmazonPayV2PaymentMethod
  else if id = PaymentMethodId.CCAvenueMars then some ReactComponent.CCAvenueMarsPaymentMethod
  else if id = PaymentMethodId.ChasePay then some ReactComponent.ChasePayPaymentMethod
  else if id = PaymentMethodId.Masterpass then some ReactComponent.MasterpassPaymentMethod
  else if id = PaymentMethodId.Braintree then some ReactComponent.BraintreeCreditCardPaymentMethod
  else if id = PaymentMethodId.PaypalCommerceCreditCards then
    some ReactComponent.PaypalCommerceCreditCardPaymentMethod
  else if id = PaymentMethodId.PaypalExpress then some ReactComponent.PaypalExpressPaymentMethod
  else if id = PaymentMethodId.PaypalPaymentsPro then
    some ReactComponent.PaypalPaymentsProPaymentMethod
  else if id = PaymentMethodId.Moneris then some ReactComponent.MonerisPaymentMethod
  else if id = PaymentMethodId.WorldpayAccess then
    some ReactComponent.WorldpayCreditCardPaymentMethod
  else none

/-- The named identifiers of the spec's rules 2 and 3: the rule-2 specific
identifiers, the two Stripe gateways and the hosted-checkout gateway. -/
def ruleTwoThreeIdentifiers : List String :=
  [PaymentMethodId.SquareV2, PaymentMethodId.StripeV3, PaymentMethodId.StripeUPE,
   PaymentMethodId.AmazonPay, PaymentMethodId.CCAvenueMars, PaymentMethodId.ChasePay,
   PaymentMethodId.Checkoutcom, PaymentMethodId.Masterpass, PaymentMethodId.Braintree,
   PaymentMethodId.PaypalCommerceCreditCards, PaymentMethodId.PaypalExpress,
   PaymentMethodId.PaypalPaymentsPro, PaymentMethodId.Moneris, PaymentMethodId.WorldpayAccess]

/-- Every identifier the chain names in any rule: the rule-2/3 identifiers plus
the buy-now-pay-later gateways and ids of the big disjunction and Opy. -/
def allNamedIdentifiers : List String :=
  ruleTwoThreeIdentifiers ++
    [PaymentMethodId.Afterpay, PaymentMethodId.Clearpay, PaymentMethodId.BraintreeVenmo,
     PaymentMethodId.Humm, PaymentMethodId.Laybuy, PaymentMethodId.Quadpay,
     PaymentMethodId.Sezzle, PaymentMethodId.Zip, PaymentMethodId.Opy]

theorem PaymentMethodComponent_eq {A B C D E F : Type}
    (props : PaymentMethodComponentProps A B C D E F) :
    PaymentMethodComponent props =
      (widgetFor props.method).map (fun c => (c, props)) := by
  simp only [PaymentMethodComponent, widgetFor,
    apply_ite (Option.map (fun c => (c, props))), Option.map_some', Option.map_none']

theorem selectedComponent_eq {A B C D E F : Type}
    (props : PaymentMethodComponentProps A B C D E F) :
    selectedComponent props = widgetFor props.method := by
  rw [selectedComponent, PaymentMethodComponent_eq]
  cases widgetFor props.method <;> rfl

/-- C1: for every props bundle, over arbitrary values of id, gateway (an absent
gateway included), type and method, the dispatcher evaluates to exactly one
result, which is either one component reference or null; it is a total function
and absence of a match yields null rather than an error. -/
theorem claim_C1_selector_total_one_or_null {A B C D E F : Type}
    (props : PaymentMethodComponentProps A B C D E F) :
    (∃! r : Option ReactComponent, selectedComponent props = r) ∧
      ((∃ c, selectedComponent props = some c) ∨ selectedComponent props = none) := by
  refine ⟨⟨selectedComponent props, rfl, fun r h => h.symm⟩, ?_⟩
  cases h : selectedComponent props
  · exact Or.inr rfl
  · exact Or.inl ⟨_, rfl⟩

/-- C2: for every descriptor whose type is the special-protocol provider type
(PPSDK), whatever id, gateway and method are, the special-protocol widget
(PPSDKPaymentMethod) is selected; no other rule can preempt it. -/
theorem claim_C2_ppsdk_always_first {A B C D E F : Type}
    (props : PaymentMethodComponentProps A B C D E F)
    (h : props.method.type = PaymentMethodProviderType.PPSDK) :
    selectedComponent props = some ReactComponent.PPSDKPaymentMethod := by
  simp [selectedComponent, PaymentMethodComponent, h]

theorem claim_C2_witness :
    selectedComponent (sampleProps ⟨"anything", some "checkoutcom", "PAYMENT_TYPE_SDK", "credit-card"⟩) =
      some ReactComponent.PPSDKPaymentMethod :=
  claim_C2_ppsdk_always_first _ rfl

/-- C8: the selection is a pure function of the descriptor's four fields: two
props bundles (with arbitrary, even differently typed, callbacks and flags)
whose descriptors agree on id, gateway, type and method get the same selected
component reference (or null in both). -/
theorem claim_C8_pure_in_descriptor {A B C D E F G H I J K L : Type}
    (p : PaymentMethodComponentProps A B C D E F)
    (q : PaymentMethodComponentProps G H I J K L)
    (hid : p.method.id = q.method.id)
    (hgw : p.method.gateway = q.method.gateway)
    (hty : p.method.type = q.method.type)
    (hmd : p.method.method = q.method.method) :
    selectedComponent p = selectedComponent q := by
  have hm : p.method = q.method := PaymentMethod.ext hid hgw hty hmd
  rw [selectedComponent_eq, selectedComponent_eq, hm]

theorem claim_C8_witness :
    selectedComponent (sampleProps ⟨"braintree", none, "t", "m"⟩) =
      selectedComponent
        { method := ⟨"braintree", none, "t", "m"⟩
          isEmbedded := some true
          isUsingMultiShipping := some false
          onUnhandledError := some (3 : Nat)
          submitForm := some "s"
          isInitializing := true
          deinitializeCustomer := (1 : Nat)
          deinitializePayment := true
          initializeCustomer := "x"
          initializePayment := (2 : Int) } :=
  claim_C8_pure_in_descriptor _ _ rfl rfl rfl rfl

/-- C9: whenever a component is selected, the props spread into it are exactly
the props the dispatcher was given — descriptor, lifecycle callbacks,
initializing flag and optional error/submit callbacks — unchanged on every
branch of the chain. -/
theorem claim_C9_props_forwarded_untouched {A B C D E F : Type}
    (props p : PaymentMethodComponentProps A B C D E F) (c : ReactComponent)
    (h : PaymentMethodComponent props = some (c, p)) : p = props := by
  rw [PaymentMethodComponent_eq] at h
  cases hw : widgetFor props.method <;> rw [hw] at h
  · exact absurd h (by simp)
  · rw [Option.map_some'] at h
    injection h with h'
    injection h' with h1 h2
    exact h2.symm

theorem claim_C9_witness :
    sampleProps ⟨"id0", none, "PAYMENT_TYPE_SDK", "m0"⟩ =
      sampleProps ⟨"id0", none, "PAYMENT_TYPE_SDK", "m0"⟩ :=
  claim_C9_props_forwarded_untouched _ _ ReactComponent.PPSDKPaymentMethod (by decide)

/-- C10: for every checkout context and descriptor props, the mapped
initializing flag is the collaborator's isInitializingPayment query applied to
that descriptor's own id, and the four forwarded lifecycle callbacks are
exactly the service's deinitializeCustomer, deinitializePayment,
initializeCustomer and initializePayment. -/
theorem claim_C10_mapper_wiring {A B C D E F : Type}
    (ctx : CheckoutContextProps C D E F) (props : PaymentMethodProps A B) :
    (mapToWithCheckoutPaymentMethodProps ctx props).isInitializing =
        ctx.checkoutState.statuses.isInitializingPayment props.method.id ∧
      (mapToWithCheckoutPaymentMethodProps ctx props).deinitializeCustomer =
        ctx.checkoutService.deinitializeCustomer ∧
      (mapToWithCheckoutPaymentMethodProps ctx props).deinitializePayment =
        ctx.checkoutService.deinitializePayment ∧
      (mapToWithCheckoutPaymentMethodProps ctx props).initializeCustomer =
        ctx.checkoutService.initializeCustomer ∧
      (mapToWithCheckoutPaymentMethodProps ctx props).initializePayment =
        ctx.checkoutService.initializePayment :=
  ⟨rfl, rfl, rfl, rfl, rfl⟩

/-- C3 counterexample: a descriptor with gateway = Checkoutcom and id =
Masterpass (a rule-2 identifier), type not PPSDK, gets the generic hosted
widget from the Checkoutcom branch, not Masterpass's dedicated widget: the
Checkoutcom gateway test precedes the Masterpass id test in the chain. -/
theorem claim_C3_counterexample :
    selectedComponent (sampleProps
        ⟨PaymentMethodId.Masterpass, some PaymentMethodId.Checkoutcom, "t", "m"⟩) =
        some ReactComponent.HostedPaymentMethod ∧
      selectedComponent (sampleProps
        ⟨PaymentMethodId.Masterpass, some PaymentMethodId.Checkoutcom, "t", "m"⟩) ≠
        some ReactComponent.MasterpassPaymentMethod := by
  decide

/-- C3 amended: for every descriptor with type not PPSDK, the rule-2 identifiers
tested before the Checkoutcom gateway test (the SquareV2 id, the StripeV3 and
StripeUPE gateways, the AmazonPay, CCAvenueMars and ChasePay ids) select their
dedicated widget whenever no earlier of those tests matches; the identifiers
tested after it (Masterpass, Braintree, PaypalCommerceCreditCards,
PaypalExpress, PaypalPaymentsPro, Moneris, WorldpayAccess) select their
dedicated widget only when the gateway is also none of StripeV3, StripeUPE and
Checkoutcom, and PaypalPaymentsPro additionally only when type is not Hosted. -/
theorem claim_C3_amended_specific_identifier_rules {A B C D E F : Type}
    (props : PaymentMethodComponentProps A B C D E F)
    (hty : props.method.type ≠ PaymentMethodProviderType.PPSDK) :
    (props.method.id = PaymentMethodId.SquareV2 →
      selectedComponent props = some ReactComponent.SquarePaymentMethod) ∧
    (props.method.id ≠ PaymentMethodId.SquareV2 →
      props.method.gateway = some PaymentMethodId.StripeV3 →
      selectedComponent props = some ReactComponent.StripePaymentMethod) ∧
    (props.method.id ≠ PaymentMethodId.SquareV2 →
      props.method.gateway = some PaymentMethodId.StripeUPE →
      selectedComponent props = some ReactComponent.StripeUPEPaymentMethod) ∧
    (props.method.id = PaymentMethodId.AmazonPay →
      props.method.gateway ≠ some PaymentMethodId.StripeV3 →
      props.method.gateway ≠ some PaymentMethodId.StripeUPE →
      selectedComponent props = some ReactComponent.AmazonPayV2PaymentMethod) ∧
    (props.method.id = PaymentMethodId.CCAvenueMars →
      props.method.gateway ≠ some PaymentMethodId.StripeV3 →
      props.method.gateway ≠ some PaymentMethodId.StripeUPE →
      selectedComponent props = some ReactComponent.CCAvenueMarsPaymentMethod) ∧
    (props.method.id = PaymentMethodId.ChasePay →
      props.method.gateway ≠ some PaymentMethodId.StripeV3 →
      props.method.gateway ≠ some PaymentMethodId.StripeUPE →
      selectedComponent props = some ReactComponent.ChasePayPaymentMethod) ∧
    (props.method.id = PaymentMethodId.Masterpass →
      props.method.gateway ≠ some PaymentMethodId.StripeV3 →
      props.method.gateway ≠ some PaymentMethodId.StripeUPE →
      props.method.gateway ≠ some PaymentMethodId.Checkoutcom →
      selectedComponent props = some ReactComponent.MasterpassPaymentMethod) ∧
    (props.method.id = PaymentMethodId.Braintree →
      props.method.gateway ≠ some PaymentMethodId.StripeV3 →
      props.method.gateway ≠ some PaymentMethodId.StripeUPE →
      props.method.gateway ≠ some PaymentMethodId.Checkoutcom →
      selectedComponent props = some ReactComponent.BraintreeCreditCardPaymentMethod) ∧
    (props.method.id = PaymentMethodId.PaypalCommerceCreditCards →
      props.method.gateway ≠ some PaymentMethodId.StripeV3 →
      props.method.gateway ≠ some PaymentMethodId.StripeUPE →
      props.method.gateway ≠ some PaymentMethodId.Checkoutcom →
      selectedComponent props = some ReactComponent.PaypalCommerceCreditCardPaymentMethod) ∧
    (props.method.id = PaymentMethodId.PaypalExpress →
      props.method.gateway ≠ some PaymentMethodId.StripeV3 →
      props.method.gateway ≠ some PaymentMethodId.StripeUPE →
      props.method.gateway ≠ some PaymentMethodId.Checkoutcom →
      selectedComponent props = some ReactComponent.PaypalExpressPaymentMethod) ∧
    (props.method.id = PaymentMethodId.PaypalPaymentsPro →
      props.method.gateway ≠ some PaymentMethodId.StripeV3 →
      props.method.gateway ≠ some PaymentMethodId.StripeUPE →
      props.method.gateway ≠ some PaymentMethodId.Checkoutcom →
      props.method.type ≠ PaymentMethodProviderType.Hosted →
      selectedComponent props = some ReactComponent.PaypalPaymentsProPaymentMethod) ∧
    (props.method.id = PaymentMethodId.Moneris →
      props.method.gateway ≠ some PaymentMethodId.StripeV3 →
      props.method.gateway ≠ some PaymentMethodId.StripeUPE →
      props.method.gateway ≠ some PaymentMethodId.Checkoutcom →
      selectedComponent props = some ReactComponent.MonerisPaymentMethod) ∧
    (props.method.id = PaymentMethodId.WorldpayAccess →
      props.method.gateway ≠ some PaymentMethodId.StripeV3 →
      props.method.gateway ≠ some PaymentMethodId.StripeUPE →
      props.method.gateway ≠ some PaymentMethodId.Checkoutcom →
      selectedComponent props = some ReactComponent.WorldpayCreditCardPaymentMethod) := by
  refine ⟨fun h1 => ?_, fun h1 h2 => ?_, fun h1 h2 => ?_, fun h1 h2 h3 => ?_,
    fun h1 h2 h3 => ?_, fun h1 h2 h3 => ?_, fun h1 h2 h3 h4 => ?_, fun h1 h2 h3 h4 => ?_,
    fun h1 h2 h3 h4 => ?_, fun h1 h2 h3 h4 => ?_, fun h1 h2 h3 h4 h5 => ?_,
    fun h1 h2 h3 h4 => ?_, fun h1 h2 h3 h4 => ?_⟩ <;>
  simp_all [selectedComponent, PaymentMethodComponent]

theorem claim_C3_witness :
    selectedComponent (sampleProps ⟨"masterpass", none, "t", "m"⟩) =
      some ReactComponent.MasterpassPaymentMethod :=
  (claim_C3_amended_specific_identifier_rules (sampleProps ⟨"masterpass", none, "t", "m"⟩)
    (by decide)).2.2.2.2.2.2.1 rfl (by decide) (by decide) (by decide)

/-- C4 counterexample: a descriptor with gateway = Checkoutcom and id =
SquareV2 ("squarev2", neither "credit_card" nor "card") gets SquareV2's
dedicated widget, not the generic hosted widget the claim predicts: the
SquareV2 id test precedes the Checkoutcom gateway test. -/
theorem claim_C4_counterexample :
    selectedComponent (sampleProps
        ⟨PaymentMethodId.SquareV2, some PaymentMethodId.Checkoutcom, "t", "m"⟩) =
        some ReactComponent.SquarePaymentMethod ∧
      selectedComponent (sampleProps
        ⟨PaymentMethodId.SquareV2, some PaymentMethodId.Checkoutcom, "t", "m"⟩) ≠
        some ReactComponent.HostedPaymentMethod := by
  decide

/-- C4 amended: for every descriptor with gateway = Checkoutcom whose type is
not PPSDK and whose id is none of the ids tested before the gateway test
(SquareV2, AmazonPay, CCAvenueMars, ChasePay): if id is the literal
"credit_card" or the literal "card" the hosted-credit-card widget is selected,
and for any other id the generic hosted widget is selected. -/
theorem claim_C4_amended_checkoutcom_nested {A B C D E F : Type}
    (props : PaymentMethodComponentProps A B C D E F)
    (hty : props.method.type ≠ PaymentMethodProviderType.PPSDK)
    (hgw : props.method.gateway = some PaymentMethodId.Checkoutcom)
    (h1 : props.method.id ≠ PaymentMethodId.SquareV2)
    (h2 : props.method.id ≠ PaymentMethodId.AmazonPay)
    (h3 : props.method.id ≠ PaymentMethodId.CCAvenueMars)
    (h4 : props.method.id ≠ PaymentMethodId.ChasePay) :
    (props.method.id = "credit_card" ∨ props.method.id = "card" →
        selectedComponent props = some ReactComponent.HostedCreditCardPaymentMethod) ∧
      (props.method.id ≠ "credit_card" → props.method.id ≠ "card" →
        selectedComponent props = some ReactComponent.HostedPaymentMethod) := by
  constructor
  · rintro (h | h) <;> simp_all [selectedComponent, PaymentMethodComponent]
  · intro ha hb
    simp_all [selectedComponent, PaymentMethodComponent]

theorem claim_C4_witness :
    selectedComponent (sampleProps ⟨"visa", some "checkoutcom", "t", "m"⟩) =
      some ReactComponent.HostedPaymentMethod :=
  (claim_C4_amended_checkoutcom_nested (sampleProps ⟨"visa", some "checkoutcom", "t", "m"⟩)
    (by decide) rfl (by decide) (by decide) (by decide) (by decide)).2 (by decide) (by decide)

/-- C5 counterexample: a descriptor with modality credit-card and id = Moneris
(a rule-2 identifier) but gateway = Checkoutcom gets the generic hosted widget
from the Checkoutcom branch, not Moneris's dedicated widget as the claim
predicts: a yet earlier rule can preempt the id match. -/
theorem claim_C5_counterexample :
    selectedComponent (sampleProps ⟨PaymentMethodId.Moneris,
        some PaymentMethodId.Checkoutcom, "t", PaymentMethodType.CreditCard⟩) =
        some ReactComponent.HostedPaymentMethod ∧
      selectedComponent (sampleProps ⟨PaymentMethodId.Moneris,
        some PaymentMethodId.Checkoutcom, "t", PaymentMethodType.CreditCard⟩) ≠
        some ReactComponent.MonerisPaymentMethod := by
  decide

/-- C5 amended: for every descriptor whose modality is credit-card and whose id
is a rule-2 specific identifier, provided no rule tested even earlier matches
(type not PPSDK, gateway none of StripeV3, StripeUPE and Checkoutcom, and for
the PaypalPaymentsPro id type not Hosted), the identifier's own dedicated
widget is selected and not the hosted-credit-card fallback of rule 6:
evaluation order is the exact textual order. -/
theorem claim_C5_amended_id_beats_creditcard_fallback {A B C D E F : Type}
    (props : PaymentMethodComponentProps A B C D E F)
    (hcc : props.method.method = PaymentMethodType.CreditCard)
    (hid : props.method.id ∈ specificWidgetIds)
    (hty : props.method.type ≠ PaymentMethodProviderType.PPSDK)
    (hpro : props.method.id = PaymentMethodId.PaypalPaymentsPro →
      props.method.type ≠ PaymentMethodProviderType.Hosted)
    (hg1 : props.method.gateway ≠ some PaymentMethodId.StripeV3)
    (hg2 : props.method.gateway ≠ some PaymentMethodId.StripeUPE)
    (hg3 : props.method.gateway ≠ some PaymentMethodId.Checkoutcom) :
    selectedComponent props = dedicatedWidget props.method.id ∧
      selectedComponent props ≠ some ReactComponent.HostedCreditCardPaymentMethod := by
  simp only [specificWidgetIds, List.mem_cons, List.not_mem_nil, or_false] at hid
  rcases hid with h | h | h | h | h | h | h | h | h | h | h <;>
    constructor <;>
    simp_all [selectedComponent, PaymentMethodComponent, dedicatedWidget]

theorem claim_C5_witness :
    selectedComponent (sampleProps ⟨"moneris", none, "t", "credit-card"⟩) =
        dedicatedWidget "moneris" ∧
      selectedComponent (sampleProps ⟨"moneris", none, "t", "credit-card"⟩) ≠
        some ReactComponent.HostedCreditCardPaymentMethod :=
  claim_C5_amended_id_beats_creditcard_fallback (sampleProps ⟨"moneris", none, "t", "credit-card"⟩)
    rfl (by decide) (by decide) (by decide) (by decide) (by decide) (by decide)

/-- C6: for every descriptor whose modality is PayPal-credit and that matches
no earlier rule (type not PPSDK, id and gateway not among the named
identifiers of rules 2 and 3), the generic hosted widget is selected: the big
disjunction fires before the credit-card fallback. -/
theorem claim_C6_paypalcredit_generic_hosted {A B C D E F : Type}
    (props : PaymentMethodComponentProps A B C D E F)
    (hpc : props.method.method = PaymentMethodType.PaypalCredit)
    (hty : props.method.type ≠ PaymentMethodProviderType.PPSDK)
    (hid : props.method.id ∉ ruleTwoThreeIdentifiers)
    (hgw : ∀ g ∈ ruleTwoThreeIdentifiers, props.method.gateway ≠ some g) :
    selectedComponent props = some ReactComponent.HostedPaymentMethod := by
  simp_all [selectedComponent, PaymentMethodComponent, ruleTwoThreeIdentifiers]

theorem claim_C6_witness :
    selectedComponent (sampleProps ⟨"somepay", none, "t", "paypalcredit"⟩) =
      some ReactComponent.HostedPaymentMethod :=
  claim_C6_paypalcredit_generic_hosted (sampleProps ⟨"somepay", none, "t", "paypalcredit"⟩)
    rfl (by decide) (by decide) (by decide)

/-- C7: for every descriptor matching none of the named rules (type none of
PPSDK, Hosted and Api, modality none of PayPal, PayPal-credit and credit-card,
id and gateway not among any named identifier), the dispatcher returns null:
no render. -/
theorem claim_C7_no_match_no_render {A B C D E F : Type}
    (props : PaymentMethodComponentProps A B C D E F)
    (hty : props.method.type ∉ [PaymentMethodProviderType.PPSDK,
      PaymentMethodProviderType.Hosted, PaymentMethodProviderType.Api])
    (hmd : props.method.method ∉ [PaymentMethodType.Paypal,
      PaymentMethodType.PaypalCredit, PaymentMethodType.CreditCard])
    (hid : props.method.id ∉ allNamedIdentifiers)
    (hgw : ∀ g ∈ allNamedIdentifiers, props.method.gateway ≠ some g) :
    selectedComponent props = none := by
  simp_all [selectedComponent, PaymentMethodComponent, allNamedIdentifiers,
    ruleTwoThreeIdentifiers]

theorem claim_C7_witness :
    selectedComponent (sampleProps ⟨"mygate", none, "other", "bank"⟩) = none :=
  claim_C7_no_match_no_render (sampleProps ⟨"mygate", none, "other", "bank"⟩)
    (by decide) (by decide) (by decide) (by decide)

end BigCommerceCheckout
